import Mathlib

/-!
Verification development for the `python-wekan` client library.

The Python source is shallowly embedded: every definition below mirrors a
function of the repository (file and line references are given in the doc
comments).  External library behaviour that the source relies on
(`requests.Response.raise_for_status`, `Response.json`, `json.JSONDecodeError`,
`datetime.fromisoformat`, Python string hashing) is modelled according to the
documented semantics of those libraries.
-/

namespace Wekan

/-- Decoded JSON values, as produced by `response.json()` in the source.
`null` models Python `None`. -/
inductive Json where
  | null : Json
  | bool : Bool → Json
  | num : Int → Json
  | str : String → Json
  | arr : List Json → Json
  | obj : List (String × Json) → Json
  deriving Repr

/-- Lookup of a key in a decoded JSON object (Python `dict` access /
`dict.get`).  Decoded JSON objects have unique keys, so a first-match
lookup is faithful. -/
def jsonGet (kvs : List (String × Json)) (k : String) : Option Json :=
  (kvs.find? (fun kv => kv.fst == k)).map (·.snd)

/-- Python string equality between a string and a decoded JSON value
(`str.__eq__`): only another string with the same content compares equal. -/
def elemEqStr (s : String) : Json → Bool
  | .str t => s == t
  | _ => false

/-- `matchesAt needle hay`: `needle` occurs at the very front of `hay`. -/
def matchesAt : List Char → List Char → Bool
  | [], _ => true
  | _ :: _, [] => false
  | a :: as, b :: bs => a == b && matchesAt as bs

/-- Substring containment on character lists (Python `needle in hay` for
strings). -/
def containsSub (hay needle : List Char) : Bool :=
  matchesAt needle hay ||
    (match hay with
     | [] => false
     | _ :: t => containsSub t needle)

/-- The conflict marker searched for in error bodies
(src/wekan/wekan_client.py line 170). -/
def usernameMarker : String := "Username already exists"

/-- The error taxonomy of src/wekan/wekan_client.py lines 11–28, plus a
constructor for Python exceptions that escape `fetch_json` uncaught
(`AttributeError` / `TypeError` raised inside the handler on lines 169–173
are not caught there: only `json.JSONDecodeError` is). -/
inductive WekanError where
  | authenticationError (message : String) (statusCode : Option Nat)
  | notFoundError (message : String) (statusCode : Option Nat)
  | usernameAlreadyExists (message : String)
  | apiError (message : String) (statusCode : Option Nat)
  | pythonError (kind : String)
  deriving Repr, DecidableEq

/-- Result of one `fetch_json` call once a response has been received:
a decoded JSON value, the raw body text (legacy DELETE branch), or a raised
error. -/
inductive FetchResult where
  | ok (value : Json)
  | okText (text : String)
  | error (e : WekanError)
  deriving Repr

/-- An HTTP response as visible to `fetch_json`: status code, raw body text
and the result of `response.json()` (`none` models `json.JSONDecodeError`). -/
structure HttpResponse where
  statusCode : Nat
  text : String
  jsonBody : Option Json

/-- `requests.Response.raise_for_status` raises `HTTPError` exactly for
status codes 400–599 (documented behaviour of the `requests` library used on
src/wekan/wekan_client.py line 157). -/
def raiseForStatus (s : Nat) : Bool := 400 ≤ s && s < 600

/-- Models lines 169–173 of src/wekan/wekan_client.py:
`"Username already exists" in e.response.json().get("reason", "")`.
`.ok b` is the boolean outcome; `.error kind` is an uncaught Python
exception: `.get` on a non-`dict` raises `AttributeError`, and `in` applied
to a number / boolean / `None` raises `TypeError` (for a decoded list it is
element equality, for a decoded dict it is key membership). -/
def usernameMarkerCheck (j : Json) : Except String Bool :=
  match j with
  | .obj kvs =>
    match jsonGet kvs "reason" with
    | none => .ok false
    | some (.str s) => .ok (containsSub s.toList usernameMarker.toList)
    | some (.arr xs) => .ok (xs.any (elemEqStr usernameMarker))
    | some (.obj kvs2) => .ok (kvs2.any (fun kv => kv.fst == usernameMarker))
    | some _ => .error "TypeError"
  | _ => .error "AttributeError"

/-- Response handling of `WekanClient.fetch_json`
(src/wekan/wekan_client.py lines 156–192), after the request has been sent:
classify the response status, detect the username conflict marker, decode the
body, with the empty-body and DELETE-500 fallbacks of lines 177–192. -/
def handleResponse (httpMethod : String) (r : HttpResponse) : FetchResult :=
  if raiseForStatus r.statusCode then
    if r.statusCode == 401 then
      .error (.authenticationError ("Authentication failed: " ++ r.text)
        (some r.statusCode))
    else if r.statusCode == 404 then
      .error (.notFoundError ("Resource not found: " ++ r.text)
        (some r.statusCode))
    else
      match r.jsonBody with
      | none => .error (.apiError ("API error: " ++ r.text) (some r.statusCode))
      | some j =>
        match usernameMarkerCheck j with
        | .error kind => .error (.pythonError kind)
        | .ok true => .error (.usernameAlreadyExists "Username already exists")
        | .ok false =>
          .error (.apiError ("API error: " ++ r.text) (some r.statusCode))
  else
    match r.jsonBody with
    | some j => .ok j
    | none =>
      if (r.statusCode == 200 || r.statusCode == 201 || r.statusCode == 204)
          && r.text == "" then
        .ok (.obj [])
      else if r.statusCode == 500 && httpMethod == "DELETE" then
        .okText r.text
      else
        .error (.apiError
          ("Could not decode the API response. Please see HTTP-Response: \n "
            ++ r.text) none)

structure PyDateTime where
  year : Nat
  month : Nat
  day : Nat
  hour : Nat
  minute : Nat
  second : Nat
  microsecond : Nat
  tzOffsetSeconds : Option Int
  deriving Repr, DecidableEq

/-- Gregorian leap-year rule, as implemented by `datetime`. -/
def isLeapYear (y : Nat) : Bool :=
  y % 4 == 0 && (y % 100 != 0 || y % 400 == 0)

/-- Number of days of a month, as validated by the `datetime` constructor. -/
def daysInMonth (y m : Nat) : Nat :=
  if m == 2 then (if isLeapYear y then 29 else 28)
  else if m == 4 || m == 6 || m == 9 || m == 11 then 30
  else 31

/-- Field validity enforced by the `datetime.datetime` constructor
(MINYEAR = 1, MAXYEAR = 9999; `timezone` offsets strictly between -24h and
+24h). -/
def PyDateTime.valid (dt : PyDateTime) : Bool :=
  decide (1 ≤ dt.year) && decide (dt.year ≤ 9999) &&
  decide (1 ≤ dt.month) && decide (dt.month ≤ 12) &&
  decide (1 ≤ dt.day) && decide (dt.day ≤ daysInMonth dt.year dt.month) &&
  decide (dt.hour ≤ 23) && decide (dt.minute ≤ 59) &&
  decide (dt.second ≤ 59) && decide (dt.microsecond ≤ 999999) &&
  (match dt.tzOffsetSeconds with
   | none => true
   | some o => decide (-86399 ≤ o) && decide (o ≤ 86399))

/-- The character for a decimal digit. -/
def digitChar (n : Nat) : Char := Char.ofNat (48 + n)

/-- Two-digit zero-padded decimal rendering. -/
def pad2 (n : Nat) : List Char := [digitChar (n / 10), digitChar (n % 10)]

/-- Four-digit zero-padded decimal rendering. -/
def pad4 (n : Nat) : List Char :=
  [digitChar (n / 1000 % 10), digitChar (n / 100 % 10),
   digitChar (n / 10 % 10), digitChar (n % 10)]

/-- Six-digit zero-padded decimal rendering (microseconds). -/
def pad6 (n : Nat) : List Char :=
  pad2 (n / 10000) ++ pad2 (n / 100 % 100) ++ pad2 (n % 100)

/-- UTC-offset rendering of `datetime.isoformat()`: sign, `HH:MM`, and a
`:SS` part only when the offset has a nonzero seconds component. -/
def isoOffsetChars (o : Int) : List Char :=
  let sign : Char := if o < 0 then '-' else '+'
  let a : Nat := o.natAbs
  sign :: (pad2 (a / 3600) ++ (':' :: (pad2 (a % 3600 / 60) ++
    (if a % 60 == 0 then [] else ':' :: pad2 (a % 60)))))

/-- `datetime.isoformat()` with the default separator:
`YYYY-MM-DDTHH:MM:SS[.ffffff][+HH:MM[:SS]]`; the fractional part is omitted
when the microsecond field is zero. -/
def PyDateTime.isoformatChars (dt : PyDateTime) : List Char :=
  pad4 dt.year ++ ('-' :: (pad2 dt.month ++ ('-' :: (pad2 dt.day ++
  ('T' :: (pad2 dt.hour ++ (':' :: (pad2 dt.minute ++ (':' :: (pad2 dt.second ++
  ((if dt.microsecond == 0 then [] else '.' :: pad6 dt.microsecond) ++
  (match dt.tzOffsetSeconds with
   | none => []
   | some o => isoOffsetChars o))))))))))))

/-- Value of a decimal digit character. -/
def parseDigit (c : Char) : Option Nat :=
  if c.isDigit then some (c.toNat - 48) else none

/-- Consume exactly two decimal digits. -/
def parse2 : List Char → Option (Nat × List Char)
  | c1 :: c2 :: rest =>
    match parseDigit c1, parseDigit c2 with
    | some a, some b => some (10 * a + b, rest)
    | _, _ => none
  | _ => none

/-- Consume exactly four decimal digits. -/
def parse4 : List Char → Option (Nat × List Char)
  | c1 :: c2 :: c3 :: c4 :: rest =>
    match parseDigit c1, parseDigit c2, parseDigit c3, parseDigit c4 with
    | some a, some b, some c, some d => some (1000 * a + 100 * b + 10 * c + d, rest)
    | _, _, _, _ => none
  | _ => none

/-- Consume one expected character. -/
def expectChar (c : Char) : List Char → Option (List Char)
  | x :: rest => if x == c then some rest else none
  | [] => none

/-- Numeric value of a digit string. -/
def digitsVal (ds : List Char) : Nat :=
  ds.foldl (fun acc c => 10 * acc + (c.toNat - 48)) 0

/-- Optional fractional-seconds part: a dot followed by one to six digits,
scaled to microseconds (CPython `fromisoformat` semantics); absent fraction
means zero microseconds. -/
def parseFracOpt : List Char → Option (Nat × List Char)
  | '.' :: rest =>
    let ds := rest.takeWhile Char.isDigit
    if decide (1 ≤ ds.length) && decide (ds.length ≤ 6) then
      some (digitsVal ds * 10 ^ (6 - ds.length), rest.drop ds.length)
    else none
  | l => some (0, l)

/-- Build a validated UTC offset from parsed `±HH:MM[:SS]` components
(`timezone` requires a magnitude strictly below 24 hours). -/
def mkOffset (sign : Char) (hh mm ss : Nat) : Option (Option Int) :=
  if decide (mm ≤ 59) && decide (ss ≤ 59)
      && decide (3600 * hh + 60 * mm + ss < 86400) then
    some (some (if sign == '-' then -(3600 * (hh : Int) + 60 * mm + ss)
                else (3600 * (hh : Int) + 60 * mm + ss)))
  else none

/-- Optional trailing UTC offset `±HH:MM[:SS]`; an empty remainder yields a
naive datetime. Outer `none` is a `ValueError`. -/
def parseOffsetOpt : List Char → Option (Option Int)
  | [] => some none
  | sign :: rest =>
    if sign == '+' || sign == '-' then
      match parse2 rest with
      | none => none
      | some (hh, r1) =>
        match expectChar ':' r1 with
        | none => none
        | some r2 =>
          match parse2 r2 with
          | none => none
          | some (mm, r3) =>
            match r3 with
            | [] => mkOffset sign hh mm 0
            | ':' :: r4 =>
              match parse2 r4 with
              | some (ss, []) => mkOffset sign hh mm ss
              | _ => none
            | _ => none
    else none

/-- Field validation of the `datetime.datetime` constructor, as invoked at
the end of `fromisoformat`: an out-of-range field raises `ValueError`. -/
def mkDateTime (y mo d h mi sec usec : Nat) (off : Option Int) :
    Option PyDateTime :=
  let dt : PyDateTime := ⟨y, mo, d, h, mi, sec, usec, off⟩
  if dt.valid then some dt else none

/-- Model of `datetime.fromisoformat` on the grammar this repository
exercises: `YYYY-MM-DD[<sep>HH:MM:SS[.f{1..6}][±HH:MM[:SS]]]`, with field
validation as in the `datetime` constructor.  (CPython ≥ 3.11 additionally
accepts truncated times, week dates and basic format, none of which occur in
this client or its inputs.) -/
def fromisoformatChars (s : List Char) : Option PyDateTime :=
  match parse4 s with
  | none => none
  | some (y, r1) =>
  match expectChar '-' r1 with
  | none => none
  | some r2 =>
  match parse2 r2 with
  | none => none
  | some (mo, r3) =>
  match expectChar '-' r3 with
  | none => none
  | some r4 =>
  match parse2 r4 with
  | none => none
  | some (d, r5) =>
  match r5 with
  | [] => mkDateTime y mo d 0 0 0 0 none
  | _sep :: rtime =>
  match parse2 rtime with
  | none => none
  | some (h, r7) =>
  match expectChar ':' r7 with
  | none => none
  | some r8 =>
  match parse2 r8 with
  | none => none
  | some (mi, r9) =>
  match expectChar ':' r9 with
  | none => none
  | some r10 =>
  match parse2 r10 with
  | none => none
  | some (sec, r11) =>
  match parseFracOpt r11 with
  | none => none
  | some (usec, r12) =>
  match parseOffsetOpt r12 with
  | none => none
  | some off => mkDateTime y mo d h mi sec usec off

/-- Replacement of every `Z` by `+00:00` (`date_str.replace("Z", "+00:00")`,
src/wekan/wekan_client.py line 119; a single-character pattern makes
`str.replace` act character-wise). -/
def replaceZ : List Char → List Char
  | [] => []
  | c :: cs =>
    if c == 'Z' then '+' :: '0' :: '0' :: ':' :: '0' :: '0' :: replaceZ cs
    else c :: replaceZ cs

/-- `WekanClient.parse_iso_date` (src/wekan/wekan_client.py lines 111–121):
try `fromisoformat` on the Z-replaced string, falling back to the original
string when that raises `ValueError`. -/
def parse_iso_date (s : List Char) : Option PyDateTime :=
  match fromisoformatChars (replaceZ s) with
  | some dt => some dt
  | none => fromisoformatChars s

/-- Days since 1970-01-01 of a civil date (proleptic Gregorian); all
intermediate divisions act on nonnegative values for years ≥ 1, so the
rounding mode is immaterial. -/
def daysFromCivil (y m d : Nat) : Int :=
  let y' : Int := if m ≤ 2 then (y : Int) - 1 else (y : Int)
  let era : Int := (if 0 ≤ y' then y' else y' - 399) / 400
  let yoe : Int := y' - era * 400
  let doy : Int := (153 * (if 2 < m then (m : Int) - 3 else (m : Int) + 9) + 2) / 5
    + (d : Int) - 1
  let doe : Int := yoe * 365 + yoe / 4 - yoe / 100 + doy
  era * 146097 + doe - 719468

/-- Microseconds since epoch of the civil fields, ignoring the offset. -/
def PyDateTime.naiveMicros (dt : PyDateTime) : Int :=
  (daysFromCivil dt.year dt.month dt.day * 86400
    + dt.hour * 3600 + dt.minute * 60 + dt.second) * 1000000 + dt.microsecond

/-- Python `<` on two datetimes: aware values compare as UTC instants,
naive values compare by fields (equivalent to `naiveMicros` order for
constructor-valid fields), and mixing naive with aware raises `TypeError`
(modelled as `none`). -/
def pyDatetimeLt (a b : PyDateTime) : Option Bool :=
  match a.tzOffsetSeconds, b.tzOffsetSeconds with
  | none, none => some (decide (a.naiveMicros < b.naiveMicros))
  | some oa, some ob =>
    some (decide (a.naiveMicros - oa * 1000000 < b.naiveMicros - ob * 1000000))
  | _, _ => none

/-- `WekanClient.__is_api_token_expired` (src/wekan/wekan_client.py lines
123–131).  `localNow` is the machine's local wall clock as returned by
`datetime.now()`; `.replace(tzinfo=timezone.utc)` relabels those naive local
fields as UTC without shifting them.  `none` models an uncaught exception
(unparseable expiry string, or a naive/aware comparison `TypeError`). -/
def isApiTokenExpired (tokenExpireDate : String) (localNow : PyDateTime) :
    Option Bool :=
  let now : PyDateTime := { localNow with tzOffsetSeconds := some 0 }
  match parse_iso_date tokenExpireDate.toList with
  | none => none
  | some expireDate => pyDatetimeLt expireDate now

/-- Claimed semantics of C3 (from the spec): true iff the parsed expiry,
as a UTC instant, is strictly before the current UTC time.  The current UTC
instant is the local wall clock minus the machine's UTC offset
(`localOffsetSeconds`). -/
def specTokenExpired (tokenExpireDate : String) (localNow : PyDateTime)
    (localOffsetSeconds : Int) : Option Bool :=
  match parse_iso_date tokenExpireDate.toList with
  | none => none
  | some e =>
    match e.tzOffsetSeconds with
    | none => none
    | some oe =>
      some (decide (e.naiveMicros - oe * 1000000
        < localNow.naiveMicros - localOffsetSeconds * 1000000))

/-- The triple returned by `__get_api_token` and assigned atomically by
`WekanClient.__renew_login_data` (src/wekan/wekan_client.py lines 38–42,
102–109): `self.user_id, self.token, self.token_expire_date`.  The tuple
assignment means the three attributes are always set together, or not at
all when the login call raises. -/
structure LoginData where
  userId : String
  token : String
  tokenExpireDate : String
  deriving Repr, DecidableEq

/-- Authentication state of a `WekanClient`: `none` models the state before
the three login attributes exist (accessing them raises `AttributeError`,
caught on lines 149–151). -/
structure ClientState where
  loginData : Option LoginData
  deriving Repr, DecidableEq

/-- Outcome of the pre-request phase of `fetch_json` (lines 140–151):
the request goes out (with the client state as of that moment and the
optional Authorization header), or the expiry check itself raised
(unparseable expiry / naive-aware comparison `TypeError`, which the
`except AttributeError` does not catch), or the interpreter's recursion
limit was exhausted (`RecursionError`, likewise uncaught). -/
inductive PreOutcome where
  | send (st : ClientState) (authHeader : Option String)
  | raiseCheck (st : ClientState)
  | recursionError
  deriving Repr, DecidableEq

/-- Pre-request phase of `WekanClient.fetch_json`
(src/wekan/wekan_client.py lines 140–151), under Python's bounded call
stack (`fuel` remaining frames, `sys.getrecursionlimit()` at the top).
When the expiry attribute exists, is truthy and `__is_api_token_expired()`
returns true, the code calls `__renew_login_data` → `__get_api_token` →
`fetch_json("/users/login")` (lines 38–42 and 108), and that nested call
first runs this same pre-request phase on the *unchanged* client state —
the attribute triple is only assigned after `__get_api_token` returns.
The renewal therefore completes only if the nested phase reaches `send`:
then the login POST goes out and its decoded triple (the `loginResp`
oracle) is assigned and used for the bearer header.  When no login data
exists, the `AttributeError` is caught and no header is set.  The wall
clock is held fixed across frames; in reality it only moves forward, which
keeps an expired token expired. -/
def preRequestFuel (loginResp : LoginData) :
    Nat → ClientState → PyDateTime → PreOutcome
  | 0, _, _ => .recursionError
  | fuel + 1, st, localNow =>
    match st.loginData with
    | none => .send st none
    | some ld =>
      if ld.tokenExpireDate == "" then
        .send st (some ("Bearer " ++ ld.token))
      else
        match isApiTokenExpired ld.tokenExpireDate localNow with
        | none => .raiseCheck st
        | some false => .send st (some ("Bearer " ++ ld.token))
        | some true =>
          match preRequestFuel loginResp fuel st localNow with
          | .send _ _ =>
            .send ⟨some loginResp⟩ (some ("Bearer " ++ loginResp.token))
          | .raiseCheck _ => .raiseCheck st
          | .recursionError => .recursionError

/-- `WekanBase.__hash__` (src/wekan/base.py lines 5–7): the XOR of the
Python hashes of the concrete class name and of the proxy's id.  `h` is the
process's string-hash function — randomized per interpreter run
(PYTHONHASHSEED), so the embedding is parametric in it — modelled by its
64-bit bit pattern. -/
def wekanHash (h : String → Nat) (className : String) (id : String) : Nat :=
  h className ^^^ h id

/-- `WekanBase.__eq__` (src/wekan/base.py lines 9–13) applied to two
proxies of the same concrete class: it compares `hash(self)` with
`hash(other)`, not the ids themselves. -/
def wekanEq (h : String → Nat) (className : String) (id1 id2 : String) :
    Bool :=
  wekanHash h className id1 == wekanHash h className id2

/-- Python exceptions that proxy construction can raise: `KeyError` for a
missing required mapping key, `ValueError`/`TypeError` from date parsing. -/
inductive InitError where
  | keyError (key : String)
  | valueError
  deriving Repr, DecidableEq

/-- Required mapping access `data["key"]`: raises `KeyError` when
absent. -/
def pyReq (data : List (String × Json)) (k : String) : Except InitError Json :=
  match jsonGet data k with
  | none => .error (.keyError k)
  | some v => .ok v

/-- Optional mapping access `data.get("key", None)`: Python `None`
(decoded `null`) when absent. -/
def pyGet (data : List (String × Json)) (k : String) : Json :=
  (jsonGet data k).getD Json.null

/-- Optional mapping access with an explicit default,
`data.get("key", default)`. -/
def pyGetD (data : List (String × Json)) (k : String) (dflt : Json) : Json :=
  (jsonGet data k).getD dflt

/-- `client.parse_iso_date(value)` applied to a mapping value: a non-string
or unparseable value raises (`AttributeError`/`ValueError`). -/
def parseDateField (v : Json) : Except InitError PyDateTime :=
  match v with
  | .str s =>
    match parse_iso_date s.toList with
    | some dt => .ok dt
    | none => .error .valueError
  | _ => .error .valueError

/-- Python truthiness of a decoded JSON value (`if data["dueAt"]:`). -/
def pyTruthy : Json → Bool
  | .null => false
  | .bool b => b
  | .num n => n != 0
  | .str s => s != ""
  | .arr xs => !xs.isEmpty
  | .obj kvs => !kvs.isEmpty

/-- Local fields of a `WekanCard` proxy, as assigned by
`WekanCard.__init__` (src/wekan/card.py lines 16–75).  The six
server-version-dependent attributes guarded by `try/except KeyError`
(cover id, vote, poker, the three gantt-linkage fields) hold `Json.null`
when absent (Python `None`); `due_at` is `none` when absent or falsy. -/
structure CardState where
  id : String
  title : Json
  members : Json
  label_ids : Json
  custom_fields : Json
  sort : Json
  swimlane_id : Json
  card_number : Json
  archived : Json
  parent_id : Json
  created_at : PyDateTime
  modified_at : PyDateTime
  date_last_activity : PyDateTime
  description : Json
  requested_by : Json
  assigned_by : Json
  assignees : Json
  spent_time : Json
  is_overtime : Json
  subtask_sort : Json
  linked_id : Json
  cover_id : Json
  vote : Json
  poker : Json
  target_id_gantt : Json
  link_type_gantt : Json
  link_id_gantt : Json
  due_at : Option PyDateTime
  deriving Repr

/-- `WekanCard.__init__` (src/wekan/card.py lines 16–75) applied to the
decoded GET response: required keys raise `KeyError` when absent (in source
order), the three timestamps are parsed, and the tolerant attributes
default to `None`. -/
def cardInit (card_id : String) (data : List (String × Json)) :
    Except InitError CardState := do
  let title ← pyReq data "title"
  let members ← pyReq data "members"
  let label_ids ← pyReq data "labelIds"
  let custom_fields ← pyReq data "customFields"
  let sort ← pyReq data "sort"
  let swimlane_id ← pyReq data "swimlaneId"
  let card_number ← pyReq data "cardNumber"
  let archived ← pyReq data "archived"
  let parent_id ← pyReq data "parentId"
  let created_at ← parseDateField (← pyReq data "createdAt")
  let modified_at ← parseDateField (← pyReq data "modifiedAt")
  let date_last_activity ← parseDateField (← pyReq data "dateLastActivity")
  let description ← pyReq data "description"
  let requested_by ← pyReq data "requestedBy"
  let assigned_by ← pyReq data "assignedBy"
  let assignees ← pyReq data "assignees"
  let spent_time ← pyReq data "spentTime"
  let is_overtime ← pyReq data "isOvertime"
  let subtask_sort ← pyReq data "subtaskSort"
  let linked_id ← pyReq data "linkedId"
  let cover_id := pyGet data "coverId"
  let vote := pyGet data "vote"
  let poker := pyGet data "poker"
  let target_id_gantt := pyGet data "targetId_gantt"
  let link_type_gantt := pyGet data "linkType_gantt"
  let link_id_gantt := pyGet data "linkId_gantt"
  let due_at ←
    match jsonGet data "dueAt" with
    | none => Except.ok none
    | some v =>
      if pyTruthy v then (parseDateField v).map some else Except.ok none
  .ok ⟨card_id, title, members, label_ids, custom_fields, sort, swimlane_id,
    card_number, archived, parent_id, created_at, modified_at,
    date_last_activity, description, requested_by, assigned_by, assignees,
    spent_time, is_overtime, subtask_sort, linked_id, cover_id, vote, poker,
    target_id_gantt, link_type_gantt, link_id_gantt, due_at⟩

/-- `WekanCard.from_dict` (src/wekan/card.py lines 107–115) reads the
required server id `data["_id"]` before constructing. -/
def cardFromDictId (data : List (String × Json)) : Except InitError Json :=
  pyReq data "_id"

/-- A decoded card mapping holding exactly the twenty required keys of
`WekanCard.__init__`, in source order, with no optional key present. -/
def cardRequiredData (tv mv lv cfv sov swv cnv arv pav cav mav dlv dev rbv
    abv asv spv iov ssv liv : Json) : List (String × Json) :=
  [("title", tv), ("members", mv), ("labelIds", lv), ("customFields", cfv),
   ("sort", sov), ("swimlaneId", swv), ("cardNumber", cnv),
   ("archived", arv), ("parentId", pav), ("createdAt", cav),
   ("modifiedAt", mav), ("dateLastActivity", dlv), ("description", dev),
   ("requestedBy", rbv), ("assignedBy", abv), ("assignees", asv),
   ("spentTime", spv), ("isOvertime", iov), ("subtaskSort", ssv),
   ("linkedId", liv)]

/-- Local fields of a `Board` proxy, as assigned by `Board.__init__`
(src/wekan/board.py lines 19–69); `raw` is the private `__raw_data`
mapping. -/
structure BoardState where
  id : String
  raw : List (String × Json)
  title : Json
  slug : Json
  archived : Json
  stars : Json
  members : Json
  created_at : PyDateTime
  modified_at : PyDateTime
  permission : Json
  color : Json
  subtasks_default_board_id : Json
  subtasks_default_list_id : Json
  allows_card_counterList : Json
  allows_board_member_list : Json
  date_settings_default_board_id : Json
  date_settings_default_list_id : Json
  allow_subtasks : Json
  allows_attachments : Json
  allows_checklists : Json
  allows_comments : Json
  allows_description_title : Json
  allows_description_text : Json
  allows_description_text_on_minicard : Json
  allows_card_number : Json
  allows_activities : Json
  allows_labels : Json
  allows_creator : Json
  allows_assignee : Json
  allows_members : Json
  allows_requested_by : Json
  allows_card_sorting_by_number : Json
  allows_show_lists : Json
  allows_assigned_by : Json
  allows_received_date : Json
  allows_start_date : Json
  allows_end_date : Json
  allows_due_date : Json
  present_parent_task : Json
  is_overtime : Json
  type : Json
  sort : Json
  deriving Repr

/-- `Board.__init__` (src/wekan/board.py lines 19–69) applied to the
decoded GET response: required keys raise `KeyError` when absent, `slug`
defaults to the empty string, the `.get(..., None)` attributes default to
`None`, and the two timestamps are parsed. -/
def boardInit (board_id : String) (data : List (String × Json)) :
    Except InitError BoardState := do
  let title ← pyReq data "title"
  let slug := pyGetD data "slug" (.str "")
  let archived ← pyReq data "archived"
  let stars ← pyReq data "stars"
  let members ← pyReq data "members"
  let created_at ← parseDateField (← pyReq data "createdAt")
  let modified_at ← parseDateField (← pyReq data "modifiedAt")
  let permission ← pyReq data "permission"
  let color ← pyReq data "color"
  let subtasks_default_board_id ← pyReq data "subtasksDefaultBoardId"
  let subtasks_default_list_id ← pyReq data "subtasksDefaultListId"
  let allows_card_counterList := pyGet data "allowsCardCounterList"
  let allows_board_member_list := pyGet data "allowsBoardMemberList"
  let date_settings_default_board_id := pyGet data "dateSettingsDefaultBoardId"
  let date_settings_default_list_id := pyGet data "dateSettingsDefaultListId"
  let allow_subtasks ← pyReq data "allowsSubtasks"
  let allows_attachments ← pyReq data "allowsAttachments"
  let allows_checklists ← pyReq data "allowsChecklists"
  let allows_comments ← pyReq data "allowsComments"
  let allows_description_title ← pyReq data "allowsDescriptionTitle"
  let allows_description_text ← pyReq data "allowsDescriptionText"
  let allows_description_text_on_minicard :=
    pyGet data "allowsDescriptionTextOnMinicard"
  let allows_card_number ← pyReq data "allowsCardNumber"
  let allows_activities ← pyReq data "allowsActivities"
  let allows_labels ← pyReq data "allowsLabels"
  let allows_creator := pyGet data "allowsCreator"
  let allows_assignee ← pyReq data "allowsAssignee"
  let allows_members ← pyReq data "allowsMembers"
  let allows_requested_by ← pyReq data "allowsRequestedBy"
  let allows_card_sorting_by_number := pyGet data "allowsCardSortingByNumber"
  let allows_show_lists := pyGet data "allowsShowLists"
  let allows_assigned_by ← pyReq data "allowsAssignedBy"
  let allows_received_date ← pyReq data "allowsReceivedDate"
  let allows_start_date ← pyReq data "allowsStartDate"
  let allows_end_date ← pyReq data "allowsEndDate"
  let allows_due_date ← pyReq data "allowsDueDate"
  let present_parent_task := pyGet data "presentParentTask"
  let is_overtime := pyGet data "isOvertime"
  let ty ← pyReq data "type"
  let sort ← pyReq data "sort"
  .ok ⟨board_id, data, title, slug, archived, stars, members, created_at,
    modified_at, permission, color, subtasks_default_board_id,
    subtasks_default_list_id, allows_card_counterList,
    allows_board_member_list, date_settings_default_board_id,
    date_settings_default_list_id, allow_subtasks, allows_attachments,
    allows_checklists, allows_comments, allows_description_title,
    allows_description_text, allows_description_text_on_minicard,
    allows_card_number, allows_activities, allows_labels, allows_creator,
    allows_assignee, allows_members, allows_requested_by,
    allows_card_sorting_by_number, allows_show_lists, allows_assigned_by,
    allows_received_date, allows_start_date, allows_end_date,
    allows_due_date, present_parent_task, is_overtime, ty, sort⟩

/-- Local fields of a `WekanList` proxy, as assigned by
`WekanList.__init__` (src/wekan/wekan_list.py lines 16–48).  `sort` and
`cards_count` are `none` when their guarded assignments failed (the
`except Exception` blocks log and leave the attribute unset). -/
structure WekanListState where
  boardId : String
  id : String
  title : Json
  archived : Json
  swimlane_id : Json
  created_at : PyDateTime
  updated_at : PyDateTime
  sort : Option Json
  wip_limit : Json
  color : Json
  cards_count : Option Json
  deriving Repr

/-- `WekanList.__init__` (src/wekan/wekan_list.py lines 16–48).
`ccFetch` is the result of the second HTTP call (`cards_count`); any
failure there, or a missing `list_cards_count` key, is swallowed and leaves
`cards_count` unset. -/
def listInit (boardId list_id : String) (data : List (String × Json))
    (ccFetch : Except WekanError (List (String × Json))) :
    Except InitError WekanListState := do
  let title ← pyReq data "title"
  let archived ← pyReq data "archived"
  let swimlane_id ← pyReq data "swimlaneId"
  let created_at ← parseDateField (← pyReq data "createdAt")
  let updated_at ← parseDateField (← pyReq data "updatedAt")
  let sort := jsonGet data "sort"
  let wip_limit ← pyReq data "wipLimit"
  let color := pyGetD data "color" (.str "")
  let cards_count :=
    match ccFetch with
    | .error _ => none
    | .ok dataCC => jsonGet dataCC "list_cards_count"
  .ok ⟨boardId, list_id, title, archived, swimlane_id, created_at,
    updated_at, sort, wip_limit, color, cards_count⟩

/-- One HTTP request as issued through `fetch_json`. -/
structure Request where
  uriPath : String
  httpMethod : String
  payload : List (String × Json)
  deriving Repr

/-- Errors escaping a proxy mutation method: an error of the HTTP taxonomy
raised by `fetch_json`, or a Python exception from re-running `__init__` on
the refetched data. -/
inductive UpdateError where
  | api (e : WekanError)
  | init (e : InitError)
  deriving Repr, DecidableEq

/-- Payload entry added under Python truthiness (`if title: payload[...] =
title`): skipped for `None` and for the empty string. -/
def addIfTruthy (k : String) (v : Option String) : List (String × Json) :=
  match v with
  | none => []
  | some s => if s == "" then [] else [(k, Json.str s)]

/-- Payload entry added under an `is not None` check
(`if title is not None:` in `WekanList.update`). -/
def addIfNotNone (k : String) (v : Option Json) : List (String × Json) :=
  match v with
  | none => []
  | some j => [(k, j)]

/-- Payload built by `Board.update` (src/wekan/board.py lines 337–345). -/
def boardUpdatePayload (title description color permission : Option String) :
    List (String × Json) :=
  addIfTruthy "title" title ++ addIfTruthy "description" description
    ++ addIfTruthy "color" color ++ addIfTruthy "permission" permission

/-- `Board.update` (src/wekan/board.py lines 327–351): build the payload
from the truthy arguments; when it is empty, issue no request and return
self unchanged; otherwise PUT the payload, then refetch via `__init__`
(modelled by the `put` and `refetch` oracles).  The returned request list
records every HTTP call issued. -/
def boardUpdate (b : BoardState)
    (title description color permission : Option String)
    (put : Except WekanError Json)
    (refetch : Except WekanError (List (String × Json))) :
    List Request × Except UpdateError BoardState :=
  let payload := boardUpdatePayload title description color permission
  if payload.isEmpty then ([], .ok b)
  else
    let putReq : Request := ⟨"/api/boards/" ++ b.id, "PUT", payload⟩
    match put with
    | .error e => ([putReq], .error (.api e))
    | .ok _ =>
      let getReq : Request := ⟨"/api/boards/" ++ b.id, "GET", []⟩
      match refetch with
      | .error e => ([putReq, getReq], .error (.api e))
      | .ok data =>
        match boardInit b.id data with
        | .error ie => ([putReq, getReq], .error (.init ie))
        | .ok b2 => ([putReq, getReq], .ok b2)

/-- Payload built by `WekanCard.edit` for the two arguments
`WekanCard.update` passes (src/wekan/card.py lines 240–248). -/
def cardEditPayload (title description : Option String) :
    List (String × Json) :=
  addIfTruthy "title" title ++ addIfTruthy "description" description

/-- `WekanCard.update` (src/wekan/card.py lines 80–84): always PUT via
`edit` (even with an empty payload), then refetch via `__init__`. -/
def cardUpdate (c : CardState) (boardId listId : String)
    (title description : Option String)
    (put : Except WekanError Json)
    (refetch : Except WekanError (List (String × Json))) :
    List Request × Except UpdateError CardState :=
  let uri := "/api/boards/" ++ boardId ++ "/lists/" ++ listId ++ "/cards/"
    ++ c.id
  let putReq : Request := ⟨uri, "PUT", cardEditPayload title description⟩
  match put with
  | .error e => ([putReq], .error (.api e))
  | .ok _ =>
    let getReq : Request := ⟨uri, "GET", []⟩
    match refetch with
    | .error e => ([putReq, getReq], .error (.api e))
    | .ok data =>
      match cardInit c.id data with
      | .error ie => ([putReq, getReq], .error (.init ie))
      | .ok c2 => ([putReq, getReq], .ok c2)

/-- Payload built by `WekanList.update` (src/wekan/wekan_list.py lines
105–109): `is not None` checks, so empty strings and zero are kept. -/
def listUpdatePayload (title : Option String) (position : Option Int) :
    List (String × Json) :=
  addIfNotNone "title" (title.map Json.str)
    ++ addIfNotNone "sort" (position.map Json.num)

/-- `WekanList.update` (src/wekan/wekan_list.py lines 103–119): when the
payload is empty, issue no request and return self unchanged; otherwise PUT
then refetch via `__init__` (which also performs the cards_count call,
modelled by `ccFetch`). -/
def listUpdate (l : WekanListState) (title : Option String)
    (position : Option Int) (put : Except WekanError Json)
    (refetch : Except WekanError (List (String × Json)))
    (ccFetch : Except WekanError (List (String × Json))) :
    List Request × Except UpdateError WekanListState :=
  let payload := listUpdatePayload title position
  if payload.isEmpty then ([], .ok l)
  else
    let uri := "/api/boards/" ++ l.boardId ++ "/lists/" ++ l.id
    let putReq : Request := ⟨uri, "PUT", payload⟩
    match put with
    | .error e => ([putReq], .error (.api e))
    | .ok _ =>
      let getReq : Request := ⟨uri, "GET", []⟩
      match refetch with
      | .error e => ([putReq, getReq], .error (.api e))
      | .ok data =>
        match listInit l.boardId l.id data ccFetch with
        | .error ie => ([putReq, getReq], .error (.init ie))
        | .ok l2 => ([putReq, getReq], .ok l2)


/-- C1 counterexample: the claim quantifies over every non-2xx response, but
`raise_for_status` only raises for statuses 400–599, so a status-304 response
(non-2xx) whose body is the JSON array `[]` is returned as a decoded value
and no error of the taxonomy is raised, contradicting the claim that every
remaining non-2xx case raises a generic APIError. -/
theorem c1_non2xx_counterexample :
    handleResponse "GET" ⟨304, "[]", some (.arr [])⟩ = .ok (.arr []) ∧
    handleResponse "GET" ⟨304, "[]", some (.arr [])⟩
      ≠ .error (.apiError ("API error: " ++ "[]") (some 304)) := by
  refine ⟨rfl, ?_⟩
  intro h
  rw [show handleResponse "GET" ⟨304, "[]", some (.arr [])⟩
        = .ok (.arr []) from rfl] at h
  exact FetchResult.noConfusion h

/-- C1 (amended): for every response with status 400–599, `fetch_json`
raises AuthenticationError on 401, NotFoundError on 404, and otherwise: a
non-JSON body yields a generic APIError carrying the status code and raw
text; a JSON-object body whose "reason" field is absent yields the same
generic APIError; a JSON-object body whose "reason" field is a string yields
UsernameAlreadyExists exactly when that string contains the marker
"Username already exists", and the generic APIError otherwise. -/
theorem c1_error_classification (method : String) (r : HttpResponse)
    (h4 : 400 ≤ r.statusCode) (h6 : r.statusCode < 600) :
    (r.statusCode = 401 →
      handleResponse method r =
        .error (.authenticationError ("Authentication failed: " ++ r.text)
          (some r.statusCode))) ∧
    (r.statusCode = 404 →
      handleResponse method r =
        .error (.notFoundError ("Resource not found: " ++ r.text)
          (some r.statusCode))) ∧
    (r.statusCode ≠ 401 → r.statusCode ≠ 404 →
      ((r.jsonBody = none →
         handleResponse method r =
           .error (.apiError ("API error: " ++ r.text) (some r.statusCode))) ∧
       (∀ kvs, r.jsonBody = some (.obj kvs) →
         (jsonGet kvs "reason" = none →
            handleResponse method r =
              .error (.apiError ("API error: " ++ r.text)
                (some r.statusCode))) ∧
         (∀ s, jsonGet kvs "reason" = some (.str s) →
            (containsSub s.toList usernameMarker.toList = true →
               handleResponse method r =
                 .error (.usernameAlreadyExists "Username already exists")) ∧
            (containsSub s.toList usernameMarker.toList = false →
               handleResponse method r =
                 .error (.apiError ("API error: " ++ r.text)
                   (some r.statusCode))))))) := by
  obtain ⟨s, t, j⟩ := r
  simp only [HttpResponse.statusCode] at h4 h6
  have hr : raiseForStatus s = true := by
    simp only [raiseForStatus, Bool.and_eq_true, decide_eq_true_eq]
    omega
  refine ⟨?_, ?_, ?_⟩
  · rintro rfl
    simp [handleResponse, raiseForStatus]
  · rintro rfl
    simp [handleResponse, raiseForStatus]
  · intro h401 h404
    have b401 : (s == 401) = false := by simpa using h401
    have b404 : (s == 404) = false := by simpa using h404
    refine ⟨?_, ?_⟩
    · rintro rfl
      simp [handleResponse, hr, b401, b404]
    · rintro kvs rfl
      refine ⟨?_, ?_⟩
      · intro hreason
        simp [handleResponse, hr, b401, b404, usernameMarkerCheck, hreason]
      · rintro v hreason
        refine ⟨?_, ?_⟩
        · intro hc
          simp only [String.toList] at hc
          simp [handleResponse, hr, b401, b404, usernameMarkerCheck, hreason, hc]
        · intro hc
          simp only [String.toList] at hc
          simp [handleResponse, hr, b401, b404, usernameMarkerCheck, hreason, hc]

/-- C1 witness: a concrete 409 response whose JSON body is
an object with reason "Username already exists" raises the dedicated
conflict error, by `c1_error_classification`. -/
theorem c1_error_classification_witness :
    handleResponse "POST"
      ⟨409, "conflict", some (.obj [("reason", .str "Username already exists")])⟩
      = .error (.usernameAlreadyExists "Username already exists") :=
  ((((c1_error_classification "POST"
      ⟨409, "conflict", some (.obj [("reason", .str "Username already exists")])⟩
      (by decide) (by decide)).2.2 (by decide) (by decide)).2
      [("reason", .str "Username already exists")] rfl).2
      "Username already exists" rfl).1 (by decide)

/-- C4: the DELETE-with-500 legacy carve-out of
src/wekan/wekan_client.py lines 184–188 is dead code: `raise_for_status`
(line 157) already raises for status 500, so a DELETE receiving 500 with the
non-JSON body "Internal Server Error" raises a generic APIError instead of
returning the raw text that the spec (and the branch's own comment)
promises. -/
theorem c4_delete_500_raises_api_error :
    handleResponse "DELETE" ⟨500, "Internal Server Error", none⟩
      = .error (.apiError "API error: Internal Server Error" (some 500)) ∧
    handleResponse "DELETE" ⟨500, "Internal Server Error", none⟩
      ≠ .okText "Internal Server Error" := by
  refine ⟨rfl, ?_⟩
  intro h
  rw [show handleResponse "DELETE" ⟨500, "Internal Server Error", none⟩
        = .error (.apiError "API error: Internal Server Error" (some 500))
      from rfl] at h
  exact FetchResult.noConfusion h

/-- C5 counterexample: a status-202 response (a 2xx status) with an empty
body does not decode to the empty mapping; it raises the decode APIError,
because the empty-body fallback of src/wekan/wekan_client.py line 181 only
covers statuses 200, 201 and 204. -/
theorem c5_counterexample :
    handleResponse "GET" ⟨202, "", none⟩
      = .error (.apiError
          "Could not decode the API response. Please see HTTP-Response: \n "
          none) ∧
    handleResponse "GET" ⟨202, "", none⟩ ≠ .ok (.obj []) := by
  refine ⟨rfl, ?_⟩
  intro h
  rw [show handleResponse "GET" ⟨202, "", none⟩
        = .error (.apiError
            "Could not decode the API response. Please see HTTP-Response: \n "
            none) from rfl] at h
  exact FetchResult.noConfusion h

/-- C5 (amended): a response with status 200, 201 or 204 and an empty body
decodes to the empty mapping; every other 2xx status with an empty body
raises the decode APIError instead. -/
theorem c5_empty_body (s : Nat) (method : String)
    (h2 : 200 ≤ s) (h3 : s < 300) :
    ((s = 200 ∨ s = 201 ∨ s = 204) →
      handleResponse method ⟨s, "", none⟩ = .ok (.obj [])) ∧
    (¬(s = 200 ∨ s = 201 ∨ s = 204) →
      handleResponse method ⟨s, "", none⟩ =
        .error (.apiError
          "Could not decode the API response. Please see HTTP-Response: \n "
          none)) := by
  have hr : raiseForStatus s = false := by
    simp only [raiseForStatus, Bool.and_eq_false_iff]
    left
    simp only [decide_eq_false_iff_not]
    omega
  constructor
  · rintro (rfl | rfl | rfl) <;> simp [handleResponse, raiseForStatus]
  · intro hne
    have b200 : (s == 200) = false := by simpa using fun h => hne (Or.inl h)
    have b201 : (s == 201) = false := by
      simpa using fun h => hne (Or.inr (Or.inl h))
    have b204 : (s == 204) = false := by
      simpa using fun h => hne (Or.inr (Or.inr h))
    have b500 : (s == 500) = false := by
      have : s ≠ 500 := by omega
      simpa using this
    simp [handleResponse, hr, b200, b201, b204, b500]

/-- C5 witness: status 200 with an empty body decodes to the empty mapping,
by `c5_empty_body`. -/
theorem c5_empty_body_witness :
    handleResponse "GET" ⟨200, "", none⟩ = .ok (.obj []) :=
  (c5_empty_body 200 "GET" (by decide) (by decide)).1 (Or.inl rfl)

/-- C3: `__is_api_token_expired` builds "now" as
`datetime.now().replace(tzinfo=timezone.utc)` — the local wall clock
relabelled as UTC — instead of the current UTC time.  On a machine at
UTC+02:00 whose local clock reads 2030-01-01 02:00:00 (so the true UTC time
is 2030-01-01 00:00:00Z), an expiry of 2030-01-01T01:00:00Z lies one hour in
the future, yet the code reports it expired; the claimed comparison against
current UTC time reports it not expired. -/
theorem c3_local_clock_divergence :
    isApiTokenExpired "2030-01-01T01:00:00.000Z" ⟨2030, 1, 1, 2, 0, 0, 0, none⟩
      = some true ∧
    specTokenExpired "2030-01-01T01:00:00.000Z" ⟨2030, 1, 1, 2, 0, 0, 0, none⟩
      7200 = some false :=
  ⟨by decide, by decide⟩

theorem parseDigit_digitChar (d : Nat) (h : d ≤ 9) :
    parseDigit (digitChar d) = some d := by
  interval_cases d <;> decide

theorem digitChar_toNat (d : Nat) (h : d ≤ 9) :
    (digitChar d).toNat - 48 = d := by
  interval_cases d <;> decide

theorem digitChar_isDigit (d : Nat) (h : d ≤ 9) :
    (digitChar d).isDigit = true := by
  interval_cases d <;> decide

theorem digitChar_ne_Z (d : Nat) (h : d ≤ 9) :
    (digitChar d == 'Z') = false := by
  interval_cases d <;> decide

theorem parse2_pad2 (n : Nat) (h : n ≤ 99) (rest : List Char) :
    parse2 (pad2 n ++ rest) = some (n, rest) := by
  have h1 : n / 10 ≤ 9 := by omega
  have h2 : n % 10 ≤ 9 := by omega
  have hn : 10 * (n / 10) + n % 10 = n := by omega
  simp [pad2, parse2, parseDigit_digitChar _ h1, parseDigit_digitChar _ h2, hn]

theorem parse4_pad4 (n : Nat) (h : n ≤ 9999) (rest : List Char) :
    parse4 (pad4 n ++ rest) = some (n, rest) := by
  have h1 : n / 1000 % 10 ≤ 9 := by omega
  have h2 : n / 100 % 10 ≤ 9 := by omega
  have h3 : n / 10 % 10 ≤ 9 := by omega
  have h4 : n % 10 ≤ 9 := by omega
  have hn : 1000 * (n / 1000 % 10) + 100 * (n / 100 % 10)
      + 10 * (n / 10 % 10) + n % 10 = n := by omega
  simp [pad4, parse4, parseDigit_digitChar _ h1, parseDigit_digitChar _ h2,
    parseDigit_digitChar _ h3, parseDigit_digitChar _ h4, hn]

theorem expectChar_cons (c : Char) (rest : List Char) :
    expectChar c (c :: rest) = some rest := by
  simp [expectChar]

theorem replaceZ_append (a b : List Char) :
    replaceZ (a ++ b) = replaceZ a ++ replaceZ b := by
  induction a with
  | nil => rfl
  | cons c t ih =>
    simp only [List.cons_append, replaceZ, ih]
    split <;> simp [ih]

theorem replaceZ_nil : replaceZ [] = [] := rfl

theorem replaceZ_cons (c : Char) (t : List Char) (h : (c == 'Z') = false) :
    replaceZ (c :: t) = c :: replaceZ t := by
  simp [replaceZ, h]

theorem replaceZ_digit (d : Nat) (h : d ≤ 9) (t : List Char) :
    replaceZ (digitChar d :: t) = digitChar d :: replaceZ t :=
  replaceZ_cons _ _ (digitChar_ne_Z d h)

theorem replaceZ_pad2 (n : Nat) (h : n ≤ 99) (t : List Char) :
    replaceZ (pad2 n ++ t) = pad2 n ++ replaceZ t := by
  have h1 : n / 10 ≤ 9 := by omega
  have h2 : n % 10 ≤ 9 := by omega
  simp only [pad2, List.cons_append, List.nil_append,
    replaceZ_digit _ h1, replaceZ_digit _ h2]

theorem replaceZ_pad4 (n : Nat) (t : List Char) :
    replaceZ (pad4 n ++ t) = pad4 n ++ replaceZ t := by
  have h1 : n / 1000 % 10 ≤ 9 := by omega
  have h2 : n / 100 % 10 ≤ 9 := by omega
  have h3 : n / 10 % 10 ≤ 9 := by omega
  have h4 : n % 10 ≤ 9 := by omega
  simp only [pad4, List.cons_append, List.nil_append, replaceZ_digit _ h1,
    replaceZ_digit _ h2, replaceZ_digit _ h3, replaceZ_digit _ h4]

theorem replaceZ_pad6 (n : Nat) (h : n ≤ 999999) (t : List Char) :
    replaceZ (pad6 n ++ t) = pad6 n ++ replaceZ t := by
  have h1 : n / 10000 ≤ 99 := by omega
  have h2 : n / 100 % 100 ≤ 99 := by omega
  have h3 : n % 100 ≤ 99 := by omega
  simp only [pad6, List.append_assoc, replaceZ_pad2 _ h1, replaceZ_pad2 _ h2,
    replaceZ_pad2 _ h3]

theorem replaceZ_pad2self (n : Nat) (h : n ≤ 99) :
    replaceZ (pad2 n) = pad2 n := by
  have h1 : n / 10 ≤ 9 := by omega
  have h2 : n % 10 ≤ 9 := by omega
  simp only [pad2, replaceZ_digit _ h1, replaceZ_digit _ h2, replaceZ_nil]

theorem replaceZ_pad6self (n : Nat) (h : n ≤ 999999) :
    replaceZ (pad6 n) = pad6 n := by
  have h1 : n / 10000 ≤ 99 := by omega
  have h2 : n / 100 % 100 ≤ 99 := by omega
  have h3 : n % 100 ≤ 99 := by omega
  simp only [pad6, List.append_assoc, replaceZ_pad2 _ h1, replaceZ_pad2 _ h2,
    replaceZ_pad2self _ h3]

theorem daysInMonth_le (y m : Nat) : daysInMonth y m ≤ 31 := by
  rw [daysInMonth]
  split
  · split <;> omega
  · split <;> omega

theorem replaceZ_isoOffset (o : Int) (h1 : -86399 ≤ o) (h2 : o ≤ 86399) :
    replaceZ (isoOffsetChars o) = isoOffsetChars o := by
  have ha : o.natAbs ≤ 86399 := by omega
  have hb1 : o.natAbs / 3600 ≤ 99 := by omega
  have hb2 : o.natAbs % 3600 / 60 ≤ 99 := by omega
  have hb3 : o.natAbs % 60 ≤ 99 := by omega
  have hsign : ((if o < 0 then '-' else '+') == 'Z') = false := by
    split <;> decide
  have hcolon : ((':' : Char) == 'Z') = false := by decide
  have htail : replaceZ
      (if o.natAbs % 60 == 0 then [] else ':' :: pad2 (o.natAbs % 60))
      = (if o.natAbs % 60 == 0 then [] else ':' :: pad2 (o.natAbs % 60)) := by
    split
    · exact replaceZ_nil
    · simp only [replaceZ_cons _ _ hcolon, replaceZ_pad2self _ hb3]
  simp only [isoOffsetChars, replaceZ_cons _ _ hsign, replaceZ_pad2 _ hb1,
    replaceZ_cons _ _ hcolon, replaceZ_pad2 _ hb2, htail]

theorem replaceZ_isoformat (dt : PyDateTime) (hv : dt.valid = true) :
    replaceZ dt.isoformatChars = dt.isoformatChars := by
  obtain ⟨y, mo, d, h, mi, s, us, tz⟩ := dt
  have hdash : (('-' : Char) == 'Z') = false := by decide
  have hcolon : ((':' : Char) == 'Z') = false := by decide
  have hT : (('T' : Char) == 'Z') = false := by decide
  have hdot : (('.' : Char) == 'Z') = false := by decide
  cases tz with
  | none =>
    simp only [PyDateTime.valid, Bool.and_eq_true, decide_eq_true_eq] at hv
    obtain ⟨hv, -⟩ := hv
    obtain ⟨hv, hus⟩ := hv
    obtain ⟨hv, hs⟩ := hv
    obtain ⟨hv, hmi⟩ := hv
    obtain ⟨hv, hh⟩ := hv
    obtain ⟨hv, hd2⟩ := hv
    obtain ⟨hv, hd1⟩ := hv
    obtain ⟨hv, hm2⟩ := hv
    obtain ⟨hv, hm1⟩ := hv
    obtain ⟨hy1, hy2⟩ := hv
    have hd99 : d ≤ 99 := le_trans hd2 (le_trans (daysInMonth_le y mo) (by omega))
    have htail : replaceZ
        ((if us == 0 then [] else '.' :: pad6 us) ++ ([] : List Char))
        = (if us == 0 then [] else '.' :: pad6 us) ++ ([] : List Char) := by
      split
      · exact replaceZ_nil
      · simp only [List.cons_append, replaceZ_cons _ _ hdot,
          replaceZ_pad6 _ hus, replaceZ_nil]
    simp only [PyDateTime.isoformatChars, replaceZ_pad4,
      replaceZ_cons _ _ hdash, replaceZ_pad2 _ (show mo ≤ 99 by omega),
      replaceZ_pad2 _ hd99, replaceZ_cons _ _ hT,
      replaceZ_pad2 _ (show h ≤ 99 by omega), replaceZ_cons _ _ hcolon,
      replaceZ_pad2 _ (show mi ≤ 99 by omega),
      replaceZ_pad2 _ (show s ≤ 99 by omega), htail]
  | some o =>
    simp only [PyDateTime.valid, Bool.and_eq_true, decide_eq_true_eq] at hv
    obtain ⟨hv, htz⟩ := hv
    obtain ⟨hv, hus⟩ := hv
    obtain ⟨hv, hs⟩ := hv
    obtain ⟨hv, hmi⟩ := hv
    obtain ⟨hv, hh⟩ := hv
    obtain ⟨hv, hd2⟩ := hv
    obtain ⟨hv, hd1⟩ := hv
    obtain ⟨hv, hm2⟩ := hv
    obtain ⟨hv, hm1⟩ := hv
    obtain ⟨hy1, hy2⟩ := hv
    obtain ⟨ho1, ho2⟩ := htz
    have hd99 : d ≤ 99 := le_trans hd2 (le_trans (daysInMonth_le y mo) (by omega))
    have htail : replaceZ
        ((if us == 0 then [] else '.' :: pad6 us) ++ isoOffsetChars o)
        = (if us == 0 then [] else '.' :: pad6 us) ++ isoOffsetChars o := by
      split
      · simp only [List.nil_append]
        exact replaceZ_isoOffset o ho1 ho2
      · simp only [List.cons_append, replaceZ_cons _ _ hdot,
          replaceZ_pad6 _ hus, replaceZ_isoOffset o ho1 ho2]
    simp only [PyDateTime.isoformatChars, replaceZ_pad4,
      replaceZ_cons _ _ hdash, replaceZ_pad2 _ (show mo ≤ 99 by omega),
      replaceZ_pad2 _ hd99, replaceZ_cons _ _ hT,
      replaceZ_pad2 _ (show h ≤ 99 by omega), replaceZ_cons _ _ hcolon,
      replaceZ_pad2 _ (show mi ≤ 99 by omega),
      replaceZ_pad2 _ (show s ≤ 99 by omega), htail]

theorem takeWhile_append_of (p : Char → Bool) :
    ∀ (l rest : List Char), (∀ c ∈ l, p c = true) →
      (∀ c, rest.head? = some c → p c = false) →
      (l ++ rest).takeWhile p = l := by
  intro l
  induction l with
  | nil =>
    intro rest _ hr
    cases rest with
    | nil => rfl
    | cons c t => simp [List.takeWhile_cons, hr c rfl]
  | cons a l ih =>
    intro rest hl hr
    have ha : p a = true := hl a (List.mem_cons_self a l)
    simp [List.takeWhile_cons, ha,
      ih rest (fun c hc => hl c (List.mem_cons_of_mem a hc)) hr]

theorem drop_length_append (l rest : List Char) :
    (l ++ rest).drop l.length = rest := by
  induction l with
  | nil => rfl
  | cons a l ih => simp [ih]

theorem pad2_all_isDigit (n : Nat) (h : n ≤ 99) :
    ∀ c ∈ pad2 n, c.isDigit = true := by
  have h1 : n / 10 ≤ 9 := by omega
  have h2 : n % 10 ≤ 9 := by omega
  intro c hc
  simp only [pad2, List.mem_cons, List.not_mem_nil, or_false] at hc
  rcases hc with rfl | rfl
  · exact digitChar_isDigit _ h1
  · exact digitChar_isDigit _ h2

theorem pad6_all_isDigit (n : Nat) (h : n ≤ 999999) :
    ∀ c ∈ pad6 n, c.isDigit = true := by
  intro c hc
  simp only [pad6, List.mem_append] at hc
  rcases hc with (hc | hc) | hc
  · exact pad2_all_isDigit _ (by omega) c hc
  · exact pad2_all_isDigit _ (by omega) c hc
  · exact pad2_all_isDigit _ (by omega) c hc

theorem pad6_length (n : Nat) : (pad6 n).length = 6 := by
  simp [pad6, pad2]

theorem digitsVal_pad6 (n : Nat) (h : n ≤ 999999) : digitsVal (pad6 n) = n := by
  have b1 : n / 10000 / 10 ≤ 9 := by omega
  have b2 : n / 10000 % 10 ≤ 9 := by omega
  have b3 : n / 100 % 100 / 10 ≤ 9 := by omega
  have b4 : n / 100 % 100 % 10 ≤ 9 := by omega
  have b5 : n % 100 / 10 ≤ 9 := by omega
  have b6 : n % 100 % 10 ≤ 9 := by omega
  simp only [digitsVal, pad6, pad2, List.cons_append, List.nil_append,
    List.foldl_cons, List.foldl_nil, digitChar_toNat _ b1,
    digitChar_toNat _ b2, digitChar_toNat _ b3, digitChar_toNat _ b4,
    digitChar_toNat _ b5, digitChar_toNat _ b6]
  omega

theorem parseFracOpt_pad6 (n : Nat) (h : n ≤ 999999) (rest : List Char)
    (hrest : ∀ c, rest.head? = some c → c.isDigit = false) :
    parseFracOpt ('.' :: (pad6 n ++ rest)) = some (n, rest) := by
  have htw : (pad6 n ++ rest).takeWhile Char.isDigit = pad6 n :=
    takeWhile_append_of _ _ _ (pad6_all_isDigit n h) hrest
  have hdrop6 : (pad6 n ++ rest).drop 6 = rest := by
    have hd := drop_length_append (pad6 n) rest
    rwa [pad6_length] at hd
  simp only [parseFracOpt, htw, pad6_length, hdrop6]
  norm_num [digitsVal_pad6 n h]

theorem parseFracOpt_cons_not_dot (c : Char) (t : List Char)
    (h : (c == '.') = false) :
    parseFracOpt (c :: t) = some (0, c :: t) := by
  rw [parseFracOpt.eq_def]
  split
  · next heq =>
    rw [List.cons.injEq] at heq
    exact absurd heq.1 (by simpa using h)
  · rfl

theorem parse2_pad2self (n : Nat) (h : n ≤ 99) :
    parse2 (pad2 n) = some (n, []) := by
  have hp := parse2_pad2 n h []
  rwa [List.append_nil] at hp

theorem parseOffsetOpt_isoOffset (o : Int) (h1 : -86399 ≤ o) (h2 : o ≤ 86399) :
    parseOffsetOpt (isoOffsetChars o) = some (some o) := by
  have ha : o.natAbs ≤ 86399 := by omega
  have hhh : o.natAbs / 3600 ≤ 99 := by omega
  have hmm99 : o.natAbs % 3600 / 60 ≤ 99 := by omega
  have hmm59 : o.natAbs % 3600 / 60 ≤ 59 := by omega
  have hss59 : o.natAbs % 60 ≤ 59 := by omega
  have hminus : (('-' : Char) == '+' || ('-' : Char) == '-') = true := by decide
  have hplus : (('+' : Char) == '+' || ('+' : Char) == '-') = true := by decide
  have hdd : (('-' : Char) == '-') = true := by decide
  have hpd : (('+' : Char) == '-') = false := by decide
  have hcond0 : (decide (o.natAbs % 3600 / 60 ≤ 59) && decide ((0 : Nat) ≤ 59)
      && decide (3600 * (o.natAbs / 3600) + 60 * (o.natAbs % 3600 / 60) + 0
        < 86400)) = true := by
    simp only [Bool.and_eq_true, decide_eq_true_eq]
    exact ⟨⟨hmm59, by omega⟩, by omega⟩
  have hconds : (decide (o.natAbs % 3600 / 60 ≤ 59) && decide (o.natAbs % 60 ≤ 59)
      && decide (3600 * (o.natAbs / 3600) + 60 * (o.natAbs % 3600 / 60)
        + o.natAbs % 60 < 86400)) = true := by
    simp only [Bool.and_eq_true, decide_eq_true_eq]
    exact ⟨⟨hmm59, hss59⟩, by omega⟩
  have hpd' : ¬ ((('+' : Char) == '-') = true) := by simp [hpd]
  by_cases ho : o < 0 <;> by_cases hm : (o.natAbs % 60 == 0) = true
  · have hm' : o.natAbs % 60 = 0 := by simpa using hm
    simp only [isoOffsetChars, if_pos ho, if_pos hm, parseOffsetOpt, hminus,
      if_true, parse2_pad2 _ hhh, expectChar_cons, parse2_pad2 _ hmm99,
      mkOffset]
    rw [if_pos hcond0, if_pos hdd]
    simp only [Option.some.injEq]
    omega
  · have hm' : o.natAbs % 60 ≠ 0 := by simpa using hm
    simp only [isoOffsetChars, if_pos ho, if_neg hm,
      parseOffsetOpt, hminus, if_true, parse2_pad2 _ hhh, expectChar_cons,
      parse2_pad2 _ hmm99, parse2_pad2self _ (show o.natAbs % 60 ≤ 99 by omega),
      mkOffset]
    rw [if_pos hconds, if_pos hdd]
    simp only [Option.some.injEq]
    omega
  · have hm' : o.natAbs % 60 = 0 := by simpa using hm
    simp only [isoOffsetChars, if_neg ho, if_pos hm, parseOffsetOpt, hplus,
      if_true, parse2_pad2 _ hhh, expectChar_cons, parse2_pad2 _ hmm99,
      mkOffset]
    rw [if_pos hcond0, if_neg hpd']
    simp only [Option.some.injEq]
    omega
  · have hm' : o.natAbs % 60 ≠ 0 := by simpa using hm
    simp only [isoOffsetChars, if_neg ho, if_neg hm,
      parseOffsetOpt, hplus, if_true, parse2_pad2 _ hhh, expectChar_cons,
      parse2_pad2 _ hmm99, parse2_pad2self _ (show o.natAbs % 60 ≤ 99 by omega),
      mkOffset]
    rw [if_pos hconds, if_neg hpd']
    simp only [Option.some.injEq]
    omega

theorem fromisoformat_isoformat (dt : PyDateTime) (hv : dt.valid = true)
    (o : Int) (ho : dt.tzOffsetSeconds = some o) :
    fromisoformatChars dt.isoformatChars = some dt := by
  obtain ⟨y, mo, d, h, mi, s, us, tz⟩ := dt
  simp only at ho
  subst ho
  have hb := hv
  simp only [PyDateTime.valid, Bool.and_eq_true, decide_eq_true_eq] at hb
  obtain ⟨hb, htz⟩ := hb
  obtain ⟨hb, hus⟩ := hb
  obtain ⟨hb, hs⟩ := hb
  obtain ⟨hb, hmi⟩ := hb
  obtain ⟨hb, hh⟩ := hb
  obtain ⟨hb, hd2⟩ := hb
  obtain ⟨hb, hd1⟩ := hb
  obtain ⟨hb, hm2⟩ := hb
  obtain ⟨hb, hm1⟩ := hb
  obtain ⟨hy1, hy2⟩ := hb
  obtain ⟨ho1, ho2⟩ := htz
  have hd99 : d ≤ 99 := le_trans hd2 (le_trans (daysInMonth_le y mo) (by omega))
  have hoff_head : ∀ c, (isoOffsetChars o).head? = some c → c.isDigit = false := by
    intro c hc
    simp only [isoOffsetChars, List.head?] at hc
    rw [Option.some.injEq] at hc
    subst hc
    split <;> decide
  have hsign_nodot : (((if o < 0 then '-' else '+') : Char) == '.') = false := by
    split <;> decide
  have hmk : mkDateTime y mo d h mi s us (some o)
      = some ⟨y, mo, d, h, mi, s, us, some o⟩ := by
    simp only [mkDateTime]
    rw [if_pos hv]
  by_cases hus0 : (us == 0) = true
  · have husz : us = 0 := by simpa using hus0
    subst husz
    have hfrac : parseFracOpt (isoOffsetChars o)
        = some (0, isoOffsetChars o) := by
      rw [show isoOffsetChars o
            = (if o < 0 then '-' else '+')
              :: (pad2 (o.natAbs / 3600) ++ (':' :: (pad2 (o.natAbs % 3600 / 60) ++
                (if o.natAbs % 60 == 0 then []
                 else ':' :: pad2 (o.natAbs % 60))))) from rfl]
      exact parseFracOpt_cons_not_dot _ _ hsign_nodot
    simp only [PyDateTime.isoformatChars, fromisoformatChars, hus0, if_true,
      List.nil_append, parse4_pad4 _ hy2, expectChar_cons,
      parse2_pad2 _ (show mo ≤ 99 by omega), parse2_pad2 _ hd99,
      parse2_pad2 _ (show h ≤ 99 by omega),
      parse2_pad2 _ (show mi ≤ 99 by omega),
      parse2_pad2 _ (show s ≤ 99 by omega), hfrac,
      parseOffsetOpt_isoOffset o ho1 ho2, hmk]
  · have husne : us ≠ 0 := by simpa using hus0
    have hfrac : parseFracOpt ('.' :: (pad6 us ++ isoOffsetChars o))
        = some (us, isoOffsetChars o) :=
      parseFracOpt_pad6 us hus _ hoff_head
    simp only [PyDateTime.isoformatChars, fromisoformatChars, hus0,
      Bool.false_eq_true, if_false, List.cons_append,
      parse4_pad4 _ hy2, expectChar_cons,
      parse2_pad2 _ (show mo ≤ 99 by omega), parse2_pad2 _ hd99,
      parse2_pad2 _ (show h ≤ 99 by omega),
      parse2_pad2 _ (show mi ≤ 99 by omega),
      parse2_pad2 _ (show s ≤ 99 by omega), hfrac,
      parseOffsetOpt_isoOffset o ho1 ho2, hmk]

/-- C8: for every constructor-valid timezone-aware datetime,
`parse_iso_date` applied to its `isoformat()` serialization reproduces it
exactly (hence to millisecond precision), and `parse_iso_date` accepts
fractional seconds together with the `Z` UTC suffix. -/
theorem c8_parse_iso_roundtrip :
    (∀ (dt : PyDateTime) (o : Int), dt.valid = true →
      dt.tzOffsetSeconds = some o →
      parse_iso_date dt.isoformatChars = some dt) ∧
    parse_iso_date "2030-01-01T00:00:00.123Z".toList
      = some ⟨2030, 1, 1, 0, 0, 0, 123000, some 0⟩ := by
  constructor
  · intro dt o hv ho
    unfold parse_iso_date
    rw [replaceZ_isoformat dt hv, fromisoformat_isoformat dt hv o ho]
  · decide

/-- C8 witness: the round-trip at the concrete aware datetime
2022-05-22 22:08:14.869000+01:00, by `c8_parse_iso_roundtrip`. -/
theorem c8_parse_iso_roundtrip_witness :
    parse_iso_date
        (PyDateTime.isoformatChars ⟨2022, 5, 22, 22, 8, 14, 869000, some 3600⟩)
      = some ⟨2022, 5, 22, 22, 8, 14, 869000, some 3600⟩ :=
  c8_parse_iso_roundtrip.1 ⟨2022, 5, 22, 22, 8, 14, 869000, some 3600⟩ 3600
    (by decide) rfl

/-- C2: the claimed transparent re-authentication is unreachable.  The
benign paths hold — before any login no header is attached, and a stored
token with an empty or non-expired expiry is attached unchanged without any
renewal — but whenever login data is stored with a truthy expiry and the
token is expired, `__renew_login_data` re-enters `fetch_json`, which
re-evaluates the same expiry condition on the unchanged state: for every
recursion limit the call exhausts the stack and raises RecursionError
before any HTTP request is sent, so the once-only re-authentication the
claim describes never completes. -/
theorem c2_renewal_recursion :
    (∀ (resp : LoginData) (fuel : Nat) (now : PyDateTime),
      preRequestFuel resp (fuel + 1) ⟨none⟩ now = .send ⟨none⟩ none) ∧
    (∀ (resp : LoginData) (fuel : Nat) (now : PyDateTime)
        (st : ClientState) (ld : LoginData), st.loginData = some ld →
      (ld.tokenExpireDate = "" ∨
        isApiTokenExpired ld.tokenExpireDate now = some false) →
      preRequestFuel resp (fuel + 1) st now
        = .send st (some ("Bearer " ++ ld.token))) ∧
    (∀ (resp : LoginData) (fuel : Nat) (now : PyDateTime)
        (st : ClientState) (ld : LoginData), st.loginData = some ld →
      ld.tokenExpireDate ≠ "" →
      isApiTokenExpired ld.tokenExpireDate now = some true →
      preRequestFuel resp fuel st now = .recursionError) := by
  refine ⟨?_, ?_, ?_⟩
  · intro resp fuel now
    rfl
  · intro resp fuel now st ld h hcase
    obtain ⟨data⟩ := st
    simp only at h
    subst h
    rcases hcase with hemp | hfresh
    · simp [preRequestFuel, hemp]
    · by_cases hbe : (ld.tokenExpireDate == "") = true
      · simp [preRequestFuel, hbe]
      · simp only [Bool.not_eq_true] at hbe
        simp [preRequestFuel, hbe, hfresh]
  · intro resp fuel now st ld h hne hexp
    obtain ⟨data⟩ := st
    simp only at h
    subst h
    have hbe : (ld.tokenExpireDate == "") = false := by simpa using hne
    induction fuel with
    | zero => rfl
    | succ n ih =>
      simp [preRequestFuel, hbe, hexp, ih]

/-- C2 witness: with the default recursion limit of 1000 frames, a call on
a client holding an expired token (expiry 2020-01-01T00:00:00.000Z, local
clock 2030-01-01 00:00:00) exhausts the stack and raises RecursionError
before any request, by `c2_renewal_recursion`. -/
theorem c2_renewal_recursion_witness :
    preRequestFuel ⟨"u1", "tok2", "2031-01-01T00:00:00.000Z"⟩ 1000
        ⟨some ⟨"u1", "tok1", "2020-01-01T00:00:00.000Z"⟩⟩
        ⟨2030, 1, 1, 0, 0, 0, 0, none⟩ = .recursionError :=
  c2_renewal_recursion.2.2 ⟨"u1", "tok2", "2031-01-01T00:00:00.000Z"⟩ 1000
    ⟨2030, 1, 1, 0, 0, 0, 0, none⟩
    ⟨some ⟨"u1", "tok1", "2020-01-01T00:00:00.000Z"⟩⟩
    ⟨"u1", "tok1", "2020-01-01T00:00:00.000Z"⟩ rfl (by decide) (by decide)

/-- C9 counterexample: equality is hash comparison, so under a hash
function with a collision (here a constant function, which satisfies the
only guarantee Python gives — equal strings hash equally) two proxies of
the same kind with distinct ids compare equal.  The real 64-bit string hash
is likewise non-injective on the space of id strings, so "equal iff ids
equal" has no basis in the code. -/
theorem c9_counterexample :
    wekanEq (fun _ => 0) "Board" "a" "b" = true ∧ ("a" : String) ≠ "b" :=
  ⟨rfl, by decide⟩

/-- C9 (amended): for every string-hash function, equality of two proxies
of the same concrete kind holds iff the hashes of their ids coincide;
consequently equal ids always compare equal, while distinct ids compare
equal exactly when their hashes collide. -/
theorem c9_eq_iff_hash_eq (h : String → Nat) (cn a b : String) :
    (wekanEq h cn a b = true ↔ h a = h b) ∧
    (a = b → wekanEq h cn a b = true) := by
  have cancel : ∀ x u v : Nat, (x ^^^ u = x ^^^ v) ↔ u = v := by
    intro x u v
    constructor
    · intro he
      have h2 := congrArg (fun z => x ^^^ z) he
      simpa [← Nat.xor_assoc, Nat.xor_self, Nat.zero_xor] using h2
    · intro he
      rw [he]
  constructor
  · simp only [wekanEq, wekanHash, beq_iff_eq]
    exact cancel (h cn) (h a) (h b)
  · intro he
    subst he
    simp [wekanEq]

/-- C9 witness: with a concrete hash function and equal ids the equality
operation returns true, by `c9_eq_iff_hash_eq`. -/
theorem c9_eq_iff_hash_eq_witness :
    wekanEq (fun s => s.length) "Board" "id1" "id1" = true :=
  (c9_eq_iff_hash_eq (fun s => s.length) "Board" "id1" "id1").2 rfl

/-- C7: constructing a card proxy from a decoded server mapping tolerates
the absence of the server-version-dependent attributes — cover id, vote,
poker, the three gantt-linkage fields and the due date default to the
null/none sentinel without failing, and are copied verbatim when present —
while a missing required field raises: a missing "title" (or "_id" in
`from_dict`) raises KeyError on any mapping, and a missing "createdAt" or
"modifiedAt" raises KeyError when the other required fields are present. -/
theorem c7_card_field_presence :
    (∀ (id : String)
        (tv mv lv cfv sov swv cnv arv pav dev rbv abv asv spv iov ssv liv : Json),
      cardInit id (cardRequiredData tv mv lv cfv sov swv cnv arv pav
          (.str "2023-01-01T12:00:00.000Z") (.str "2023-01-02T12:00:00.000Z")
          (.str "2023-01-03T12:00:00.000Z") dev rbv abv asv spv iov ssv liv)
        = .ok ⟨id, tv, mv, lv, cfv, sov, swv, cnv, arv, pav,
            ⟨2023, 1, 1, 12, 0, 0, 0, some 0⟩,
            ⟨2023, 1, 2, 12, 0, 0, 0, some 0⟩,
            ⟨2023, 1, 3, 12, 0, 0, 0, some 0⟩, dev, rbv, abv, asv, spv, iov,
            ssv, liv, .null, .null, .null, .null, .null, .null, none⟩) ∧
    (∀ (id : String)
        (tv mv lv cfv sov swv cnv arv pav dev rbv abv asv spv iov ssv liv
          cv vv pk tg lg ig : Json),
      cardInit id (cardRequiredData tv mv lv cfv sov swv cnv arv pav
          (.str "2023-01-01T12:00:00.000Z") (.str "2023-01-02T12:00:00.000Z")
          (.str "2023-01-03T12:00:00.000Z") dev rbv abv asv spv iov ssv liv
          ++ [("coverId", cv), ("vote", vv), ("poker", pk),
              ("targetId_gantt", tg), ("linkType_gantt", lg),
              ("linkId_gantt", ig),
              ("dueAt", .str "2023-02-01T00:00:00.000Z")])
        = .ok ⟨id, tv, mv, lv, cfv, sov, swv, cnv, arv, pav,
            ⟨2023, 1, 1, 12, 0, 0, 0, some 0⟩,
            ⟨2023, 1, 2, 12, 0, 0, 0, some 0⟩,
            ⟨2023, 1, 3, 12, 0, 0, 0, some 0⟩, dev, rbv, abv, asv, spv, iov,
            ssv, liv, cv, vv, pk, tg, lg, ig,
            some ⟨2023, 2, 1, 0, 0, 0, 0, some 0⟩⟩) ∧
    (∀ (id : String) (data : List (String × Json)),
      jsonGet data "title" = none → ∀ c, cardInit id data ≠ .ok c) ∧
    (∀ (id : String)
        (tv mv lv cfv sov swv cnv arv pav dev rbv abv asv spv iov ssv liv : Json),
      cardInit id
          [("title", tv), ("members", mv), ("labelIds", lv),
           ("customFields", cfv), ("sort", sov), ("swimlaneId", swv),
           ("cardNumber", cnv), ("archived", arv), ("parentId", pav),
           ("modifiedAt", mv), ("dateLastActivity", mv),
           ("description", dev), ("requestedBy", rbv), ("assignedBy", abv),
           ("assignees", asv), ("spentTime", spv), ("isOvertime", iov),
           ("subtaskSort", ssv), ("linkedId", liv)]
        = .error (.keyError "createdAt")) ∧
    (∀ (id : String)
        (tv mv lv cfv sov swv cnv arv pav dev rbv abv asv spv iov ssv liv : Json),
      cardInit id
          [("title", tv), ("members", mv), ("labelIds", lv),
           ("customFields", cfv), ("sort", sov), ("swimlaneId", swv),
           ("cardNumber", cnv), ("archived", arv), ("parentId", pav),
           ("createdAt", .str "2023-01-01T12:00:00.000Z"),
           ("dateLastActivity", mv),
           ("description", dev), ("requestedBy", rbv), ("assignedBy", abv),
           ("assignees", asv), ("spentTime", spv), ("isOvertime", iov),
           ("subtaskSort", ssv), ("linkedId", liv)]
        = .error (.keyError "modifiedAt")) ∧
    (∀ data, jsonGet data "_id" = none →
      cardFromDictId data = .error (.keyError "_id")) := by
  refine ⟨?_, ?_, ?_, ?_, ?_, ?_⟩
  · intros
    rfl
  · intros
    rfl
  · intro id data h c hc
    simp [cardInit, pyReq, h, Bind.bind, Except.bind] at hc
  · intros
    rfl
  · intros
    rfl
  · intro data h
    simp [cardFromDictId, pyReq, h]

/-- C7 witness: `from_dict` on a mapping with no "_id" raises KeyError, by
`c7_card_field_presence`. -/
theorem c7_card_field_presence_witness :
    cardFromDictId [] = .error (.keyError "_id") :=
  c7_card_field_presence.2.2.2.2.2 [] rfl

/-- C6: when the underlying HTTP call of a proxy mutation method raises an
error of the taxonomy, that error propagates unmodified to the caller and
no new proxy state is produced — the update functions return the error
itself, so every local field keeps its pre-call value (no optimistic
update; the PUT is the only request issued before the failure). -/
theorem c6_error_propagation :
    (∀ (b : BoardState) (t d c p : Option String) (e : WekanError)
        (refetch : Except WekanError (List (String × Json))),
      boardUpdatePayload t d c p ≠ [] →
      boardUpdate b t d c p (.error e) refetch
        = ([⟨"/api/boards/" ++ b.id, "PUT", boardUpdatePayload t d c p⟩],
           .error (.api e))) ∧
    (∀ (c : CardState) (bid lid : String) (t d : Option String)
        (e : WekanError) (refetch : Except WekanError (List (String × Json))),
      cardUpdate c bid lid t d (.error e) refetch
        = ([⟨"/api/boards/" ++ bid ++ "/lists/" ++ lid ++ "/cards/" ++ c.id,
             "PUT", cardEditPayload t d⟩], .error (.api e))) ∧
    (∀ (l : WekanListState) (t : Option String) (pos : Option Int)
        (e : WekanError)
        (refetch ccf : Except WekanError (List (String × Json))),
      listUpdatePayload t pos ≠ [] →
      listUpdate l t pos (.error e) refetch ccf
        = ([⟨"/api/boards/" ++ l.boardId ++ "/lists/" ++ l.id, "PUT",
             listUpdatePayload t pos⟩], .error (.api e))) := by
  refine ⟨?_, ?_, ?_⟩
  · intro b t d c p e refetch h
    have hne : (boardUpdatePayload t d c p).isEmpty = false := by
      cases hp : boardUpdatePayload t d c p with
      | nil => exact absurd hp h
      | cons x xs => rfl
    simp only [boardUpdate]
    rw [if_neg (by simp [hne])]
  · intro c bid lid t d e refetch
    rfl
  · intro l t pos e refetch ccf h
    have hne : (listUpdatePayload t pos).isEmpty = false := by
      cases hp : listUpdatePayload t pos with
      | nil => exact absurd hp h
      | cons x xs => rfl
    simp only [listUpdate]
    rw [if_neg (by simp [hne])]

/-- C6 witness: a list update whose PUT fails with a generic APIError
returns exactly that error and issues only the PUT, by
`c6_error_propagation`. -/
theorem c6_error_propagation_witness :
    listUpdate
        ⟨"b1", "l1", .null, .null, .null, ⟨2023, 1, 1, 0, 0, 0, 0, some 0⟩,
         ⟨2023, 1, 1, 0, 0, 0, 0, some 0⟩, none, .null, .null, none⟩
        (some "T") none (.error (.apiError "boom" (some 500))) (.ok []) (.ok [])
      = ([⟨"/api/boards/" ++ "b1" ++ "/lists/" ++ "l1", "PUT",
           listUpdatePayload (some "T") none⟩],
         .error (.api (.apiError "boom" (some 500)))) :=
  c6_error_propagation.2.2
    ⟨"b1", "l1", .null, .null, .null, ⟨2023, 1, 1, 0, 0, 0, 0, some 0⟩,
     ⟨2023, 1, 1, 0, 0, 0, 0, some 0⟩, none, .null, .null, none⟩
    (some "T") none (.apiError "boom" (some 500)) (.ok []) (.ok [])
    (List.cons_ne_nil _ _)

/-- C10: `Board.update` with every parameter omitted builds an empty
payload, issues no HTTP request at all, leaves every local field unchanged
and returns the proxy itself; `WekanList.update` short-circuits the same
way. -/
theorem c10_empty_update_short_circuit :
    (∀ (b : BoardState) (put : Except WekanError Json)
        (refetch : Except WekanError (List (String × Json))),
      boardUpdate b none none none none put refetch = ([], .ok b)) ∧
    (∀ (l : WekanListState) (put : Except WekanError Json)
        (refetch ccf : Except WekanError (List (String × Json))),
      listUpdate l none none put refetch ccf = ([], .ok l)) := by
  constructor
  · intro b put refetch
    rfl
  · intro l put refetch ccf
    rfl

end Wekan
